import Mathlib

/-!
Verification development for the News-Aggregator scheduling core
(`src/core/scheduler.py` and `src/core/composer.py`).

Python strings are embedded as `List Char` (Python `len` counts code
points, as does `List.length` on `List Char`); Python exceptions are
embedded as `Except (List Char)`; Python `datetime` instants are embedded
as abstract integer timestamps.
-/

namespace NewsAggregator

/-- Python string embedding. -/
abbrev Str := List Char

/-- `execute_pipeline`'s result dictionary (`scheduler.py`, lines 291-303).
`post` is `none` until composition succeeds; timestamps are abstract. -/
structure ExecutionResult (γ : Type) where
  job_id : Str
  job_type : Str
  week_key : Str
  status : Str
  started_at : Int
  completed_at : Option Int
  duration_seconds : Int
  articles_fetched : Nat
  articles_summarized : Nat
  post_created : Bool
  error : Option Str
  post : Option γ
  deriving Repr, DecidableEq

/-- The message of the `JobExecutionError` raised at `scheduler.py:350`. -/
def insufficientMsg (n : Nat) : Str :=
  "Insufficient summaries for composition: ".toList ++ (toString n).toList
    ++ " (minimum 3)".toList

/-- `NewsAggregatorScheduler.execute_pipeline` (`scheduler.py`, lines
271-383).  The injected collaborators `fetch`, `summarize`, `compose`
return `Except.error` where the Python collaborator raises an exception.
`startTime`/`endTime` stand for the two `datetime.now()` calls; `jobId`
for the `uuid` prefix.  The `try`/`except`/`finally` shape is embedded
directly: each stage either extends the partially-built result or stops
with the exception captured in `error` and `status = "failed"`; the
`finally` block stamps `completed_at` and `duration_seconds` on every
exit path. -/
def execute_pipeline {α β γ : Type}
    (fetch : Except Str (List α))
    (summarize : α → Except Str β)
    (compose : List β → Str → Except Str γ)
    (week_key : Str) (is_preview : Bool)
    (jobId : Str) (startTime endTime : Int) : ExecutionResult γ :=
  let result : ExecutionResult γ :=
    { job_id := jobId
      job_type := if is_preview then "preview".toList else "publish".toList
      week_key := week_key
      status := "failed".toList
      started_at := startTime
      completed_at := none
      duration_seconds := 0
      articles_fetched := 0
      articles_summarized := 0
      post_created := false
      error := none
      post := none }
  let afterTry : ExecutionResult γ :=
    match fetch with
    | .error e => { result with error := some e, status := "failed".toList }
    | .ok articles =>
      let r1 := { result with articles_fetched := articles.length }
      let articles_to_process := articles.take 10
      -- per-article `try`/`except`: a failing article is skipped
      let summaries := articles_to_process.filterMap (fun a => (summarize a).toOption)
      let r2 := { r1 with articles_summarized := summaries.length }
      if summaries.length < 3 then
        { r2 with error := some (insufficientMsg summaries.length),
                  status := "failed".toList }
      else
        match compose summaries week_key with
        | .error e => { r2 with error := some e, status := "failed".toList }
        | .ok post =>
          { r2 with post_created := true, post := some post,
                    status := "success".toList }
  -- `finally` block (lines 378-381)
  { afterTry with completed_at := some endTime,
                  duration_seconds := endTime - startTime }

/-- The summaries that survive the per-article `try`/`except` loop over
the first 10 fetched articles. -/
def successfulSummaries {α β : Type} (summarize : α → Except Str β)
    (articles : List α) : List β :=
  (articles.take 10).filterMap (fun a => (summarize a).toOption)

instance instDecEqExcept {ε α : Type _} [DecidableEq ε] [DecidableEq α] :
    DecidableEq (Except ε α)
  | .error e, .error f =>
    if h : e = f then .isTrue (by rw [h]) else .isFalse (fun hc => h (by cases hc; rfl))
  | .error _, .ok _ => .isFalse (fun hc => Except.noConfusion hc)
  | .ok _, .error _ => .isFalse (fun hc => Except.noConfusion hc)
  | .ok x, .ok y =>
    if h : x = y then .isTrue (by rw [h]) else .isFalse (fun hc => h (by cases hc; rfl))

/-- Python whitespace predicate used by `str.strip()` / `int()` (ASCII
whitespace; the embedding restricts text to ASCII). -/
def pyIsSpace (c : Char) : Bool :=
  c == ' ' || c == '\t' || c == '\n' || c == '\r' || c == '\x0b' || c == '\x0c'

/-- Python `str.strip()`: remove leading and trailing whitespace. -/
def stripWS (l : Str) : Str :=
  ((l.dropWhile pyIsSpace).reverse.dropWhile pyIsSpace).reverse

/-- Python `x.strip()` emptiness used in truthiness checks: a string is
blank iff it is empty or consists of whitespace only. -/
def isBlank (l : Str) : Bool := l.all pyIsSpace

/-- Digit-sequence tail for Python `int()`: after a first digit, single
underscores are allowed strictly between digits. -/
def parseDigitsAfter (acc : Nat) : Str → Option Nat
  | [] => some acc
  | '_' :: rest =>
    match rest with
    | c :: rest' =>
      if c.isDigit then parseDigitsAfter (acc * 10 + (c.toNat - 48)) rest' else none
    | [] => none
  | c :: rest =>
    if c.isDigit then parseDigitsAfter (acc * 10 + (c.toNat - 48)) rest else none

/-- Nonempty digit sequence for Python `int()`. -/
def parseDigits : Str → Option Nat
  | [] => none
  | c :: rest =>
    if c.isDigit then parseDigitsAfter (c.toNat - 48) rest else none

/-- Python `int(str)` (ASCII): surrounding whitespace is stripped, an
optional single sign is allowed, then a nonempty digit sequence with
underscores permitted between digits; anything else raises `ValueError`
(`none` here). -/
def pyInt (l : Str) : Option Int :=
  let t := stripWS l
  match t with
  | '+' :: rest => (parseDigits rest).map (fun n => (n : Int))
  | '-' :: rest => (parseDigits rest).map (fun n => -(n : Int))
  | _ => (parseDigits t).map (fun n => (n : Int))

/-- Python `str.split(sep)` for a one-character separator: always returns
at least one part; `"".split(sep) == [""]`. -/
def splitOnChar (l : Str) (sep : Char) : List Str :=
  match l with
  | [] => [[]]
  | c :: rest =>
    let r := splitOnChar rest sep
    if c == sep then [] :: r
    else
      match r with
      | h :: t => (c :: h) :: t
      | [] => [[c]]

/-- The character for a decimal digit value. -/
def digitChar (n : Nat) : Char := Char.ofNat (48 + n)

/-- Decimal digits of a natural number (most significant first),
fuel-indexed so that it is structurally recursive. -/
def natDigitsAux : Nat → Nat → Str
  | 0, _ => []
  | fuel + 1, n =>
    if n < 10 then [digitChar n]
    else natDigitsAux fuel (n / 10) ++ [digitChar (n % 10)]

/-- Python `str(n)` for a natural number. -/
def natDigits (n : Nat) : Str := natDigitsAux (n + 1) n

/-- Python `str(n)` for an integer. -/
def intRepr (n : Int) : Str :=
  if n < 0 then '-' :: natDigits (-n).toNat else natDigits n.toNat

/-- Python `f"{n:02d}"`: zero-pad the decimal representation to width 2
(the sign counts towards the width). -/
def py02d (n : Int) : Str :=
  let s := intRepr n
  if s.length < 2 then '0' :: s else s

/-- The `SchedulerError` message f-strings of `parse_schedule_time`. -/
def invalidTimeMsg (ts : Str) : Str :=
  "Invalid time format: ".toList ++ ts ++ ". Expected HH:MM".toList

/-- `SchedulerError` message for an out-of-range hour. -/
def invalidHourMsg (h : Int) : Str :=
  "Invalid hour: ".toList ++ intRepr h ++ ". Must be 0-23".toList

/-- `SchedulerError` message for an out-of-range minute. -/
def invalidMinuteMsg (m : Int) : Str :=
  "Invalid minute: ".toList ++ intRepr m ++ ". Must be 0-59".toList

/-- `parse_schedule_time` (`scheduler.py`, lines 406-435): split on `":"`,
require exactly two parts, convert each with Python `int` (a `ValueError`
is re-raised as `SchedulerError` with the invalid-format message), then
range-check hour and minute.  All failures surface as `SchedulerError`
(`Except.error`). -/
def parse_schedule_time (time_str : Str) : Except Str (Int × Int) :=
  match splitOnChar time_str ':' with
  | [p0, p1] =>
    match pyInt p0, pyInt p1 with
    | some hour, some minute =>
      if hour < 0 ∨ 23 < hour then .error (invalidHourMsg hour)
      else if minute < 0 ∨ 59 < minute then .error (invalidMinuteMsg minute)
      else .ok (hour, minute)
    | _, _ => .error (invalidTimeMsg time_str)
  | _ => .error (invalidTimeMsg time_str)

/-- Modelled from the spec: the literal `HH:MM` shape named by the spec —
two digits, a colon, two digits.  Used to compare the spec's claimed
rejection condition with what `parse_schedule_time` actually accepts. -/
def specMatchesHHMM (l : Str) : Bool :=
  match l with
  | [h1, h2, c, m1, m2] => h1.isDigit && h2.isDigit && c == ':' && m1.isDigit && m2.isDigit
  | _ => false

/-- Modelled from the spec: serializing an (hour, minute) pair back to
`"HH:MM"` for the round-trip property. -/
def specFormatTime (h m : Nat) : Str := py02d h ++ ':' :: py02d m

/-- One registered APScheduler job, with the fields the repository
passes to `add_job` (`scheduler.py`, lines 151-185). -/
structure Job where
  id : Str
  name : Str
  day_of_week : Nat
  hour : Int
  minute : Int
  max_instances : Nat
  deriving Repr, DecidableEq

/-- The configuration and job registry owned by
`NewsAggregatorScheduler`. -/
structure SchedulerState where
  timezone : Str
  preview_time : Str
  publish_time : Str
  jobstore_type : Str
  jobs : List Job
  deriving Repr, DecidableEq

/-- `NewsAggregatorScheduler.__init__` (`scheduler.py`, lines 46-94)
followed by `_create_scheduler` (lines 96-136): construction validates
only that the two time strings are non-blank and that the jobstore type
is `"memory"` or `"sqlite"`; on success the scheduler exists with an
empty job registry. -/
def schedulerInit (timezone preview_time publish_time jobstore_type : Str) :
    Except Str SchedulerState :=
  if isBlank preview_time then .error "preview_time cannot be empty".toList
  else if isBlank publish_time then .error "publish_time cannot be empty".toList
  else if jobstore_type = "memory".toList ∨ jobstore_type = "sqlite".toList then
    .ok { timezone := timezone, preview_time := preview_time,
          publish_time := publish_time, jobstore_type := jobstore_type, jobs := [] }
  else .error ("Invalid jobstore_type: ".toList ++ jobstore_type)

/-- APScheduler `add_job` with `replace_existing=True` (library code, not
in the repository; modelled from its documented semantics, which the spec
restates): registering an id already present replaces that job in place,
otherwise the job is appended. -/
def add_job (jobs : List Job) (j : Job) : List Job :=
  if jobs.any (fun k => k.id == j.id) then
    jobs.map (fun k => if k.id == j.id then j else k)
  else jobs ++ [j]

/-- The preview job registered by `schedule_jobs` (Thursday). -/
def previewJob (h m : Int) : Job :=
  { id := "preview_job".toList, name := "Weekly Preview Generation".toList,
    day_of_week := 3, hour := h, minute := m, max_instances := 1 }

/-- The publish job registered by `schedule_jobs` (Friday). -/
def publishJob (h m : Int) : Job :=
  { id := "publish_job".toList, name := "Weekly Publication".toList,
    day_of_week := 4, hour := h, minute := m, max_instances := 1 }

/-- `NewsAggregatorScheduler.schedule_jobs` (`scheduler.py`, lines
138-192): parse both configured times (a parse failure raises before any
job is registered), then register the preview and publish jobs with
`replace_existing=True`. -/
def schedule_jobs (st : SchedulerState) : Except Str SchedulerState :=
  match parse_schedule_time st.preview_time with
  | .error e => .error e
  | .ok (ph, pm) =>
    match parse_schedule_time st.publish_time with
    | .error e => .error e
    | .ok (bh, bm) =>
      .ok { st with
            jobs := add_job (add_job st.jobs (previewJob ph pm)) (publishJob bh bm) }

/-- `schedule_jobs` called `n` times in sequence. -/
def schedule_jobs_iter : Nat → SchedulerState → Except Str SchedulerState
  | 0, st => .ok st
  | n + 1, st =>
    match schedule_jobs st with
    | .error e => .error e
    | .ok st' => schedule_jobs_iter n st'

/-- A summary dictionary as consumed by `composer.py`: each required key
is `Option`al (`none` embeds a missing key). -/
structure Summary where
  article_url : Option Str
  summary : Option Str
  source : Option Str
  published_at : Option Str
  provider : Option Str
  deriving Repr, DecidableEq

/-- `ComposerError` message for a missing required field. -/
def missingFieldMsg (idx : Nat) (field : Str) : Str :=
  "Summary at index ".toList ++ natDigits idx
    ++ " missing required field: ".toList ++ field

/-- `ComposerError` message for empty summary text. -/
def emptySummaryMsg (idx : Nat) : Str :=
  "Summary at index ".toList ++ natDigits idx ++ " has empty summary text".toList

/-- `ComposerError` message for fewer than 3 summaries. -/
def needAtLeast3Msg (n : Nat) : Str :=
  "Need at least 3 articles to compose a post, got ".toList ++ natDigits n

/-- The per-summary checks of `validate_summaries` (`composer.py`, lines
280-289): the five required fields in order, then the empty-text check
(Python `not summary["summary"] or len(summary["summary"].strip()) == 0`). -/
def checkSummary (s : Summary) (idx : Nat) : Except Str Unit :=
  if s.article_url.isNone then .error (missingFieldMsg idx "article_url".toList)
  else if s.summary.isNone then .error (missingFieldMsg idx "summary".toList)
  else if s.source.isNone then .error (missingFieldMsg idx "source".toList)
  else if s.published_at.isNone then .error (missingFieldMsg idx "published_at".toList)
  else if s.provider.isNone then .error (missingFieldMsg idx "provider".toList)
  else if isBlank (s.summary.getD []) then .error (emptySummaryMsg idx)
  else .ok ()

/-- The `for idx, summary in enumerate(summaries)` loop of
`validate_summaries`: first failing summary raises. -/
def checkSummaries : List Summary → Nat → Except Str Unit
  | [], _ => .ok ()
  | s :: rest, idx =>
    match checkSummary s idx with
    | .error e => .error e
    | .ok _ => checkSummaries rest (idx + 1)

/-- `validate_summaries` (`composer.py`, lines 259-289). -/
def validate_summaries (summaries : List Summary) : Except Str Unit :=
  if summaries.length = 0 then .error "Summaries list cannot be empty".toList
  else if summaries.length < 3 then .error (needAtLeast3Msg summaries.length)
  else checkSummaries summaries 0

/-- Python `str.lower()` (ASCII letters; the embedding is ASCII-only). -/
def pyLower (l : Str) : Str := l.map Char.toLower

/-- Python `week_part.replace("W", "")`: remove every `W`. -/
def removeW (l : Str) : Str := l.filter (fun c => !(c == 'W'))

/-- `generate_headline` (`composer.py`, lines 92-112).  The
`except` fallback uses `datetime.now().year`; that impure value is the
`fallback_year` parameter. -/
def generate_headline (article_count : Nat) (week_key : Str) (fallback_year : Str) :
    Str :=
  match splitOnChar week_key '.' with
  | [year, week_part] =>
    "🚀 Tech & AI Weekly Digest — Week ".toList ++ removeW week_part
      ++ ", ".toList ++ year
  | _ =>
    "🚀 Tech & AI Weekly Digest — Week ".toList ++ week_key
      ++ ", ".toList ++ fallback_year

/-- The `number_emojis` lookup of `format_article_highlight`
(`composer.py`, lines 127-136), with the `f"{index}."` fallback. -/
def number_emojis (index : Nat) : Str :=
  match index with
  | 1 => "1️⃣".toList
  | 2 => "2️⃣".toList
  | 3 => "3️⃣".toList
  | 4 => "4️⃣".toList
  | 5 => "5️⃣".toList
  | 6 => "6️⃣".toList
  | _ => natDigits index ++ ".".toList

/-- `format_article_highlight` (`composer.py`, lines 115-144); the
`summary` and `source` keys are present whenever this is reached (it runs
after validation). -/
def format_article_highlight (summary : Summary) (index : Nat) : Str :=
  number_emojis index ++ " ".toList ++ summary.summary.getD []
    ++ "\n   🔗 Source: ".toList ++ summary.source.getD []

/-- Python substring test `needle in hay`. -/
def isSubstring (needle hay : Str) : Bool :=
  (List.range (hay.length + 1)).any (fun i => needle.isPrefixOf (hay.drop i))

/-- The ordered `contextual_tags` dictionary of `select_hashtags`
(`composer.py`, lines 161-177). -/
def contextual_tags : List (Str × Str) :=
  [("machine learning".toList, "#MachineLearning".toList),
   ("ml".toList, "#MachineLearning".toList),
   ("cloud".toList, "#CloudComputing".toList),
   ("security".toList, "#Cybersecurity".toList),
   ("cyber".toList, "#Cybersecurity".toList),
   ("devops".toList, "#DevOps".toList),
   ("software".toList, "#SoftwareEngineering".toList),
   ("data".toList, "#DataScience".toList),
   ("open source".toList, "#OpenSource".toList),
   ("blockchain".toList, "#Blockchain".toList),
   ("quantum".toList, "#QuantumComputing".toList),
   ("edge".toList, "#EdgeComputing".toList),
   ("ai".toList, "#AI".toList),
   ("gpt".toList, "#AI".toList),
   ("llm".toList, "#AI".toList)]

/-- First-occurrence deduplication (the `unique_tags` loop of
`select_hashtags`, and the embedding's fixed enumeration order for the
Python `set`s, whose iteration order CPython leaves unspecified; no claim
proved here depends on that order). -/
def dedupKeepFirst : List Str → List Str → List Str
  | [], _ => []
  | x :: xs, seen =>
    if seen.contains x then dedupKeepFirst xs seen
    else x :: dedupKeepFirst xs (x :: seen)

/-- `select_hashtags` (`composer.py`, lines 147-200). -/
def select_hashtags (summaries : List Summary) : List Str :=
  let core_tags := ["#TechNews".toList, "#ArtificialIntelligence".toList,
                    "#TechWeekly".toList]
  let all_text := List.intercalate [' ']
    (summaries.map (fun s => pyLower (s.summary.getD [])))
  let matched_tags := dedupKeepFirst
    ((contextual_tags.filter (fun kt => isSubstring kt.1 all_text)).map Prod.snd) []
  let all_tags := core_tags ++ matched_tags
  let unique_tags := dedupKeepFirst all_tags []
  unique_tags.take 8

/-- Python `str.rfind(sub)`: the greatest index at which `sub` occurs, or
`-1` when it does not occur. -/
def rfind (hay needle : Str) : Int :=
  match ((List.range (hay.length + 1)).filter
      (fun i => needle.isPrefixOf (hay.drop i))).getLast? with
  | some i => (i : Int)
  | none => -1

/-- `truncate_to_limit` (`composer.py`, lines 219-256): cut to
`limit - 50` characters, back up to the last sentence end or paragraph
break (else the last space), and append an ellipsis when anything was
cut. -/
def truncate_to_limit (content : Str) (limit : Nat) : Str :=
  if content.length ≤ limit then content
  else
    let truncated := content.take (limit - 50)
    let last_period := rfind truncated ".".toList
    let last_newline := rfind truncated "\n\n".toList
    let cut_point := max last_period last_newline
    let truncated2 :=
      if 0 < cut_point then truncated.take (cut_point.toNat + 1)
      else
        let last_space := rfind truncated " ".toList
        if 0 < last_space then truncated.take last_space.toNat
        else truncated
    if truncated2.length < content.length then truncated2 ++ "...".toList
    else truncated2

/-- The post dictionary returned by `compose_weekly_post` (`composer.py`,
lines 80-89); the impure `created_at` timestamp is omitted. -/
structure Post where
  week_key : Str
  content : Str
  headline : Str
  article_count : Nat
  character_count : Nat
  hashtags : List Str
  sources : List Str
  deriving Repr, DecidableEq

/-- The highlight loop of `compose_weekly_post` (`composer.py`, lines
57-60): for each selected summary, its formatted highlight followed by a
blank line, with 1-based indices. -/
def highlightParts : List Summary → Nat → List Str
  | [], _ => []
  | s :: rest, idx => format_article_highlight s idx :: [] :: highlightParts rest (idx + 1)

/-- `compose_weekly_post` (`composer.py`, lines 20-89) with an explicit
`week_key` (the `week_key=None` path reads the clock and is outside this
embedding; `fallback_year` likewise stands for `datetime.now().year` in
the headline fallback).  `sources` enumerates the Python `set` in
first-occurrence order. -/
def compose_weekly_post (summaries : List Summary) (week_key : Str)
    (fallback_year : Str) : Except Str Post :=
  match validate_summaries summaries with
  | .error e => .error e
  | .ok _ =>
    let selected_summaries :=
      if summaries.length > 6 then summaries.take 6 else summaries
    let headline := generate_headline selected_summaries.length week_key fallback_year
    let hashtags := select_hashtags selected_summaries
    let content_parts :=
      [headline, [],
       "This week's top stories in technology and artificial intelligence:".toList,
       []]
      ++ highlightParts selected_summaries 1
      ++ ["💡 What caught your attention this week? Drop a comment below!".toList,
          [],
          List.intercalate [' '] hashtags]
    let full_content := List.intercalate ['\n'] content_parts
    let full_content :=
      if full_content.length > 3000 then truncate_to_limit full_content 3000
      else full_content
    .ok { week_key := week_key
          content := full_content
          headline := headline
          article_count := selected_summaries.length
          character_count := full_content.length
          hashtags := hashtags
          sources := dedupKeepFirst (selected_summaries.map (fun s => s.source.getD [])) [] }

/-- Gregorian leap-year test (CPython `datetime._is_leap`). -/
def isLeap (y : Nat) : Bool := y % 4 == 0 && (y % 100 != 0 || y % 400 == 0)

/-- Days in a Gregorian year. -/
def daysInYear (y : Nat) : Nat := if isLeap y then 366 else 365

/-- CPython's `_DAYS_BEFORE_MONTH` table (non-leap years). -/
def dbmTable (m : Nat) : Nat :=
  match m with
  | 1 => 0 | 2 => 31 | 3 => 59 | 4 => 90 | 5 => 120 | 6 => 151
  | 7 => 181 | 8 => 212 | 9 => 243 | 10 => 273 | 11 => 304 | 12 => 334
  | _ => 0

/-- CPython `datetime._days_before_month`. -/
def daysBeforeMonth (y m : Nat) : Nat :=
  dbmTable m + (if 2 < m ∧ isLeap y then 1 else 0)

/-- CPython `datetime._days_in_month`. -/
def daysInMonth (y m : Nat) : Nat :=
  match m with
  | 2 => if isLeap y then 29 else 28
  | 4 => 30 | 6 => 30 | 9 => 30 | 11 => 30
  | _ => 31

/-- CPython `datetime._days_before_year`: days before January 1 of the
year in the proleptic Gregorian calendar. -/
def daysBeforeYear (y : Nat) : Nat :=
  let n := y - 1
  n * 365 + n / 4 - n / 100 + n / 400

/-- CPython `datetime._ymd2ord`: proleptic Gregorian ordinal
(0001-01-01 is day 1). -/
def ymd2ord (y m d : Nat) : Nat := daysBeforeYear y + daysBeforeMonth y m + d

/-- CPython `datetime._isoweek1monday`: the ordinal of the Monday
starting ISO week 1 of the given year. -/
def isoweek1monday (y : Nat) : Int :=
  let firstday : Int := ymd2ord y 1 1
  let firstweekday := (firstday + 6) % 7
  let week1monday := firstday - firstweekday
  if 3 < firstweekday then week1monday + 7 else week1monday

/-- CPython `datetime.date.isocalendar` (the standard library function
the repository calls; the repository's own code is only the formatting in
`get_week_key_for_date`).  Python's `divmod` is floor division, which for
the positive divisor 7 coincides with Lean's Euclidean `Int` division. -/
def isocalendar (y m d : Nat) : Nat × Int × Int :=
  let t : Int := ymd2ord y m d
  let w1 := isoweek1monday y
  let week := (t - w1) / 7
  let day := (t - w1) % 7
  if week < 0 then
    let w1p := isoweek1monday (y - 1)
    (y - 1, (t - w1p) / 7 + 1, (t - w1p) % 7 + 1)
  else if 52 ≤ week ∧ isoweek1monday (y + 1) ≤ t then
    (y + 1, 1, day + 1)
  else
    (y, week + 1, day + 1)

/-- A calendar date Python's `datetime` accepts (`MINYEAR = 1`;
`MAXYEAR = 9999` bounds the year from above but is not needed below). -/
def validDate (y m d : Nat) : Prop :=
  1 ≤ y ∧ 1 ≤ m ∧ m ≤ 12 ∧ 1 ≤ d ∧ d ≤ daysInMonth y m

instance validDate.decidable (y m d : Nat) : Decidable (validDate y m d) := by
  unfold validDate
  infer_instance

/-- `get_week_key_for_date` (`scheduler.py`, lines 438-451):
`f"{year}.W{week:02d}"` over the ISO year and week of the date. -/
def get_week_key_for_date (y m d : Nat) : Str :=
  natDigits (isocalendar y m d).1 ++ ".W".toList ++ py02d (isocalendar y m d).2.1

/-- The spec's week-key pattern `^\d\x7b4\x7d\.W\d\x7b2\x7d$`: four
digits, a dot, `W`, two digits. -/
def weekKeyPattern (l : Str) : Bool :=
  match l with
  | [y1, y2, y3, y4, dot, w, k1, k2] =>
    y1.isDigit && y2.isDigit && y3.isDigit && y4.isDigit
      && dot == '.' && w == 'W' && k1.isDigit && k2.isDigit
  | _ => false

/-- The full validation condition one summary must fail for
`validate_summaries` to reject it: a missing required field, or
empty/whitespace-only summary text (the latter is checked by the code in
addition to the field-presence checks the spec lists). -/
def summaryInvalid (s : Summary) : Bool :=
  s.article_url.isNone || s.summary.isNone || s.source.isNone
    || s.published_at.isNone || s.provider.isNone || isBlank (s.summary.getD [])

/-- C1: for every week key and every behaviour of the injected fetch,
summarize and compose collaborators (including raising), `execute_pipeline`
returns a terminal `ExecutionResult`: its status is `"success"` or
`"failed"`, `completed_at` and `duration_seconds` are populated on every
exit path, and a stage exception (fetch raising, or compose raising after
enough summaries) is captured into the `error` field. -/
theorem C1_execute_pipeline_always_terminal {α β γ : Type}
    (fetch : Except Str (List α)) (summarize : α → Except Str β)
    (compose : List β → Str → Except Str γ)
    (week_key : Str) (is_preview : Bool) (jobId : Str) (t0 t1 : Int) :
    ((execute_pipeline fetch summarize compose week_key is_preview jobId t0 t1).status
        = "success".toList
      ∨ (execute_pipeline fetch summarize compose week_key is_preview jobId t0 t1).status
        = "failed".toList)
    ∧ (execute_pipeline fetch summarize compose week_key is_preview jobId t0 t1).completed_at
        = some t1
    ∧ (execute_pipeline fetch summarize compose week_key is_preview jobId t0 t1).duration_seconds
        = t1 - t0
    ∧ (∀ e, fetch = .error e →
        (execute_pipeline fetch summarize compose week_key is_preview jobId t0 t1).error
          = some e
        ∧ (execute_pipeline fetch summarize compose week_key is_preview jobId t0 t1).status
          = "failed".toList)
    ∧ (∀ arts e, fetch = .ok arts →
        3 ≤ (successfulSummaries summarize arts).length →
        compose (successfulSummaries summarize arts) week_key = .error e →
        (execute_pipeline fetch summarize compose week_key is_preview jobId t0 t1).error
          = some e
        ∧ (execute_pipeline fetch summarize compose week_key is_preview jobId t0 t1).status
          = "failed".toList) := by
  cases fetch with
  | error e =>
    refine ⟨Or.inr rfl, rfl, rfl, ?_, ?_⟩
    · intro e' he
      cases he
      exact ⟨rfl, rfl⟩
    · intro arts e' he
      cases he
  | ok arts =>
    by_cases h3 : ((arts.take 10).filterMap fun a => (summarize a).toOption).length < 3
    · refine ⟨Or.inr ?_, rfl, rfl, ?_, ?_⟩
      · simp only [execute_pipeline, h3, if_true, if_pos h3]
      · intro e' he; cases he
      · intro arts' e' he hlen hcomp
        cases he
        exact absurd hlen (by simpa [successfulSummaries] using h3)
    · rcases hc : compose ((arts.take 10).filterMap fun a => (summarize a).toOption) week_key
        with e' | p
      · refine ⟨Or.inr ?_, rfl, rfl, ?_, ?_⟩
        · simp only [execute_pipeline, if_neg h3, hc]
        · intro e'' he; cases he
        · intro arts' e'' he hlen hcomp
          cases he
          simp only [successfulSummaries] at hcomp
          rw [hc] at hcomp
          cases hcomp
          simp [execute_pipeline, if_neg h3, hc]
      · refine ⟨Or.inl ?_, rfl, rfl, ?_, ?_⟩
        · simp only [execute_pipeline, if_neg h3, hc]
        · intro e'' he; cases he
        · intro arts' e'' he hlen hcomp
          cases he
          simp only [successfulSummaries] at hcomp
          rw [hc] at hcomp
          cases hcomp

/-- Witness for C1 at a concrete input: a fetcher that raises `"boom"`. -/
theorem C1_witness :
    (execute_pipeline (γ := Nat) (α := Nat) (.error "boom".toList)
        (fun n : Nat => .ok n) (fun l _ => .ok l.length)
        "2025.W41".toList true "abc12345".toList 10 17).error
      = some "boom".toList
    ∧ (execute_pipeline (γ := Nat) (α := Nat) (.error "boom".toList)
        (fun n : Nat => .ok n) (fun l _ => .ok l.length)
        "2025.W41".toList true "abc12345".toList 10 17).status
      = "failed".toList := by
  have h := C1_execute_pipeline_always_terminal (γ := Nat) (α := Nat) (β := Nat)
    (.error "boom".toList) (fun n : Nat => .ok n) (fun l _ => .ok l.length)
    "2025.W41".toList true "abc12345".toList 10 17
  exact h.2.2.2.1 "boom".toList rfl

/-- C2: summarization is attempted only on the first 10 fetched articles,
per-article failures are skipped; fewer than 3 successes aborts with
status `"failed"`, `post_created = false` and the insufficient-summaries
error, reporting the count actually achieved; with at least 3 successes
and a successful composition the run succeeds with the success count. -/
theorem C2_summarize_cap_and_threshold {α β γ : Type}
    (arts : List α) (summarize : α → Except Str β)
    (compose : List β → Str → Except Str γ)
    (week_key : Str) (is_preview : Bool) (jobId : Str) (t0 t1 : Int) :
    (execute_pipeline (.ok arts) summarize compose week_key is_preview jobId t0 t1).articles_summarized
      = (successfulSummaries summarize arts).length
    ∧ ((successfulSummaries summarize arts).length < 3 →
        (execute_pipeline (.ok arts) summarize compose week_key is_preview jobId t0 t1).status
          = "failed".toList
        ∧ (execute_pipeline (.ok arts) summarize compose week_key is_preview jobId t0 t1).post_created
          = false
        ∧ (execute_pipeline (.ok arts) summarize compose week_key is_preview jobId t0 t1).error
          = some (insufficientMsg (successfulSummaries summarize arts).length))
    ∧ (∀ post, 3 ≤ (successfulSummaries summarize arts).length →
        compose (successfulSummaries summarize arts) week_key = .ok post →
        (execute_pipeline (.ok arts) summarize compose week_key is_preview jobId t0 t1).status
          = "success".toList
        ∧ (execute_pipeline (.ok arts) summarize compose week_key is_preview jobId t0 t1).post_created
          = true
        ∧ (execute_pipeline (.ok arts) summarize compose week_key is_preview jobId t0 t1).articles_summarized
          = (successfulSummaries summarize arts).length) := by
  by_cases h3 : ((arts.take 10).filterMap fun a => (summarize a).toOption).length < 3
  · refine ⟨?_, ?_, ?_⟩
    · simp [execute_pipeline, successfulSummaries, h3]
    · intro _
      simp [execute_pipeline, successfulSummaries, h3, insufficientMsg]
    · intro post hlen _
      exact absurd hlen (by simpa [successfulSummaries] using h3)
  · rcases hc : compose ((arts.take 10).filterMap fun a => (summarize a).toOption) week_key
      with e | p
    · refine ⟨?_, ?_, ?_⟩
      · simp [execute_pipeline, successfulSummaries, h3, hc]
      · intro hlt
        exact absurd (by simpa [successfulSummaries] using hlt) h3
      · intro post _ hcomp
        simp only [successfulSummaries] at hcomp
        rw [hc] at hcomp
        cases hcomp
    · refine ⟨?_, ?_, ?_⟩
      · simp [execute_pipeline, successfulSummaries, h3, hc]
      · intro hlt
        exact absurd (by simpa [successfulSummaries] using hlt) h3
      · intro post _ hcomp
        simp [execute_pipeline, successfulSummaries, h3, hc]

/-- Witness for C2: 5 articles fetched, the summarizer fails on 2 of
them, so 3 summaries succeed, composition succeeds, and the run reports
`articles_summarized = 3`, status `"success"`, `post_created = true`. -/
theorem C2_witness :
    (execute_pipeline (γ := Nat) (.ok [0, 1, 2, 3, 4])
        (fun n : Nat => if n % 2 = 0 then .ok n else .error "fail".toList)
        (fun l _ => .ok l.length)
        "2025.W41".toList true "abc12345".toList 10 17).articles_summarized = 3
    ∧ (execute_pipeline (γ := Nat) (.ok [0, 1, 2, 3, 4])
        (fun n : Nat => if n % 2 = 0 then .ok n else .error "fail".toList)
        (fun l _ => .ok l.length)
        "2025.W41".toList true "abc12345".toList 10 17).status = "success".toList
    ∧ (execute_pipeline (γ := Nat) (.ok [0, 1, 2, 3, 4])
        (fun n : Nat => if n % 2 = 0 then .ok n else .error "fail".toList)
        (fun l _ => .ok l.length)
        "2025.W41".toList true "abc12345".toList 10 17).post_created = true := by
  have h := C2_summarize_cap_and_threshold (γ := Nat) [0, 1, 2, 3, 4]
    (fun n : Nat => if n % 2 = 0 then .ok n else .error "fail".toList)
    (fun l _ => .ok l.length) "2025.W41".toList true "abc12345".toList 10 17
  have hs := h.2.2 3 (by decide) (by rfl)
  exact ⟨hs.2.2.trans (by decide), hs.1, hs.2.1⟩

/-- C3: every result of `execute_pipeline` satisfies
`post_created = true → status = "success"`; in particular when composition
itself raises, `post_created` is `false` in the returned result. -/
theorem C3_post_created_implies_success {α β γ : Type}
    (fetch : Except Str (List α)) (summarize : α → Except Str β)
    (compose : List β → Str → Except Str γ)
    (week_key : Str) (is_preview : Bool) (jobId : Str) (t0 t1 : Int) :
    ((execute_pipeline fetch summarize compose week_key is_preview jobId t0 t1).post_created
        = true →
      (execute_pipeline fetch summarize compose week_key is_preview jobId t0 t1).status
        = "success".toList)
    ∧ (∀ arts e, fetch = .ok arts →
        compose (successfulSummaries summarize arts) week_key = .error e →
        (execute_pipeline fetch summarize compose week_key is_preview jobId t0 t1).post_created
          = false) := by
  cases fetch with
  | error e =>
    refine ⟨?_, ?_⟩
    · intro h; cases h
    · intro arts e' he; cases he
  | ok arts =>
    by_cases h3 : ((arts.take 10).filterMap fun a => (summarize a).toOption).length < 3
    · refine ⟨?_, ?_⟩
      · intro h
        simp [execute_pipeline, h3] at h
      · intro arts' e' he _
        cases he
        simp [execute_pipeline, h3]
    · rcases hc : compose ((arts.take 10).filterMap fun a => (summarize a).toOption) week_key
        with e' | p
      · refine ⟨?_, ?_⟩
        · intro h
          simp [execute_pipeline, h3, hc] at h
        · intro arts' e'' he _
          cases he
          simp [execute_pipeline, h3, hc]
      · refine ⟨?_, ?_⟩
        · intro _
          simp [execute_pipeline, h3, hc]
        · intro arts' e'' he hcomp
          cases he
          simp only [successfulSummaries] at hcomp
          rw [hc] at hcomp
          cases hcomp

/-- Witness for C3: a composer that raises leaves `post_created = false`. -/
theorem C3_witness :
    (execute_pipeline (γ := Nat) (.ok [0, 1, 2])
        (fun n : Nat => .ok n)
        (fun _ _ => Except.error "compose boom".toList)
        "2025.W41".toList false "abc12345".toList 10 17).post_created = false := by
  have h := C3_post_created_implies_success (γ := Nat) (.ok [0, 1, 2])
    (fun n : Nat => .ok n) (fun _ _ => Except.error "compose boom".toList)
    "2025.W41".toList false "abc12345".toList 10 17
  exact h.2 [0, 1, 2] "compose boom".toList rfl rfl

/-- C4 counterexample: the claim says a malformed or out-of-range
`HH:MM` time makes scheduler construction fail, but constructing with
`preview_time = "25:00"` (hour out of range) succeeds; the
out-of-rangeness is real, as `parse_schedule_time` rejects it. -/
theorem C4_counterexample :
    schedulerInit "Europe/London".toList "25:00".toList "10:00".toList "memory".toList
      = .ok ⟨"Europe/London".toList, "25:00".toList, "10:00".toList,
             "memory".toList, []⟩
    ∧ parse_schedule_time "25:00".toList = .error (invalidHourMsg 25) := by
  exact ⟨rfl, rfl⟩

/-- C4 amended: construction fails fast only for blank (empty or
whitespace-only) time strings; a malformed or out-of-range time string
passes construction and raises `SchedulerError` when `schedule_jobs`
parses it — before any job is registered, hence never at fire time. -/
theorem C4_validation_split (tz pt pub jt : Str) :
    (isBlank pt = true →
      schedulerInit tz pt pub jt = .error "preview_time cannot be empty".toList)
    ∧ (isBlank pt = false → isBlank pub = true →
      schedulerInit tz pt pub jt = .error "publish_time cannot be empty".toList)
    ∧ (∀ st e, schedulerInit tz pt pub jt = .ok st →
        parse_schedule_time pt = .error e →
        st.jobs = [] ∧ schedule_jobs st = .error e) := by
  refine ⟨?_, ?_, ?_⟩
  · intro h
    simp [schedulerInit, h]
  · intro h1 h2
    simp [schedulerInit, h1, h2]
  · intro st e hinit hparse
    unfold schedulerInit at hinit
    split_ifs at hinit
    cases hinit
    refine ⟨rfl, ?_⟩
    simp only [schedule_jobs]
    rw [hparse]

/-- Witness for C4 (amended) at the counterexample's configuration:
the scheduler constructed with `preview_time = "25:00"` has no jobs and
`schedule_jobs` fails with the out-of-range-hour error. -/
theorem C4_witness :
    (SchedulerState.mk "Europe/London".toList "25:00".toList "10:00".toList
        "memory".toList []).jobs = []
    ∧ schedule_jobs ⟨"Europe/London".toList, "25:00".toList, "10:00".toList,
        "memory".toList, []⟩ = .error (invalidHourMsg 25) := by
  have h := C4_validation_split "Europe/London".toList "25:00".toList "10:00".toList
    "memory".toList
  exact h.2.2 ⟨"Europe/London".toList, "25:00".toList, "10:00".toList,
    "memory".toList, []⟩ (invalidHourMsg 25) rfl rfl

/-- C5 counterexample: `" 08:5_9 "` does not match the spec's `HH:MM`
shape, yet `parse_schedule_time` returns `(8, 59)` instead of raising
(Python `int` strips whitespace and allows underscores between digits). -/
theorem C5_counterexample :
    specMatchesHHMM " 08:5_9 ".toList = false
    ∧ parse_schedule_time " 08:5_9 ".toList = .ok (8, 59) := by
  exact ⟨rfl, rfl⟩

set_option maxHeartbeats 2000000 in
/-- C5 amended: for all hour ∈ [0,23] and minute ∈ [0,59], parsing the
serialized `"HH:MM"` string round-trips to exactly that pair; and
`parse_schedule_time` never returns an out-of-range pair — but its
acceptance is broader than literal `HH:MM` (components go through Python
`int`, which tolerates whitespace, signs, unpadded digits and
underscores), so not every non-`HH:MM` string is rejected. -/
theorem C5_roundtrip_and_range_soundness (h m : Nat) (hh : h ≤ 23) (hm : m ≤ 59) :
    parse_schedule_time (specFormatTime h m) = .ok ((h : Int), (m : Int))
    ∧ ∀ s h' m', parse_schedule_time s = .ok (h', m') →
        0 ≤ h' ∧ h' ≤ 23 ∧ 0 ≤ m' ∧ m' ≤ 59 := by
  constructor
  · have key : ∀ a : Nat, a < 24 → ∀ b : Nat, b < 60 →
        parse_schedule_time (specFormatTime a b) = .ok ((a : Int), (b : Int)) := by
      decide
    exact key h (by omega) m (by omega)
  · intro s h' m' hp
    unfold parse_schedule_time at hp
    split at hp
    · split at hp
      · split_ifs at hp with h1 h2
        injection hp with hp'
        injection hp' with hhq hmq
        subst hhq; subst hmq
        push_neg at h1 h2
        exact ⟨h1.1, h1.2, h2.1, h2.2⟩
      · cases hp
    · cases hp

/-- Witness for C5 (amended) at (18, 0): `"18:00"` parses back to it. -/
theorem C5_witness :
    parse_schedule_time (specFormatTime 18 0) = .ok (18, 0) := by
  exact (C5_roundtrip_and_range_soundness 18 0 (by decide) (by decide)).1

/-- C7: starting from a freshly constructed scheduler (empty registry)
with parseable times, calling `schedule_jobs` any N ≥ 1 times yields
exactly the two configured jobs `preview_job` (Thursday) and
`publish_job` (Friday) — re-registration replaces, never duplicates. -/
theorem C7_schedule_jobs_idempotent (tz pt pub jt : Str) (ph pm bh bm : Int) (N : Nat)
    (hpt : parse_schedule_time pt = .ok (ph, pm))
    (hpub : parse_schedule_time pub = .ok (bh, bm)) (hN : 1 ≤ N) :
    schedule_jobs_iter N ⟨tz, pt, pub, jt, []⟩
      = .ok ⟨tz, pt, pub, jt, [previewJob ph pm, publishJob bh bm]⟩ := by
  have h1 : schedule_jobs ⟨tz, pt, pub, jt, []⟩
      = .ok ⟨tz, pt, pub, jt, [previewJob ph pm, publishJob bh bm]⟩ := by
    simp only [schedule_jobs]
    rw [hpt, hpub]
    rfl
  have h2 : schedule_jobs ⟨tz, pt, pub, jt, [previewJob ph pm, publishJob bh bm]⟩
      = .ok ⟨tz, pt, pub, jt, [previewJob ph pm, publishJob bh bm]⟩ := by
    simp only [schedule_jobs]
    rw [hpt, hpub]
    rfl
  have h3 : ∀ k, schedule_jobs_iter k ⟨tz, pt, pub, jt,
      [previewJob ph pm, publishJob bh bm]⟩
      = .ok ⟨tz, pt, pub, jt, [previewJob ph pm, publishJob bh bm]⟩ := by
    intro k
    induction k with
    | zero => rfl
    | succ n ih =>
      simp only [schedule_jobs_iter, h2]
      exact ih
  obtain ⟨k, rfl⟩ : ∃ k, N = k + 1 := ⟨N - 1, by omega⟩
  simp only [schedule_jobs_iter, h1]
  exact h3 k

/-- Witness for C7: two consecutive `schedule_jobs` calls on the default
configuration leave exactly the preview and publish jobs, not four. -/
theorem C7_witness :
    schedule_jobs_iter 2 ⟨"Europe/London".toList, "18:00".toList, "10:00".toList,
        "memory".toList, []⟩
      = .ok ⟨"Europe/London".toList, "18:00".toList, "10:00".toList,
             "memory".toList, [previewJob 18 0, publishJob 10 0]⟩ := by
  exact C7_schedule_jobs_idempotent "Europe/London".toList "18:00".toList
    "10:00".toList "memory".toList 18 0 10 0 2 rfl rfl (by decide)

/-- One summary passes `checkSummary` exactly when it has all required
fields and non-blank summary text. -/
theorem checkSummary_ok_iff (s : Summary) (idx : Nat) :
    checkSummary s idx = .ok () ↔ summaryInvalid s = false := by
  unfold checkSummary summaryInvalid
  split_ifs with h1 h2 h3 h4 h5 h6 <;> simp_all [Option.isSome_iff_ne_none]

/-- The validation loop passes exactly when every summary does. -/
theorem checkSummaries_ok_iff (l : List Summary) (idx : Nat) :
    checkSummaries l idx = .ok () ↔ ∀ s ∈ l, summaryInvalid s = false := by
  induction l generalizing idx with
  | nil => simp [checkSummaries]
  | cons s rest ih =>
    rcases h : checkSummary s idx with e | u
    · simp only [checkSummaries, h]
      constructor
      · intro hc; cases hc
      · intro hall
        have := (checkSummary_ok_iff s idx).2 (hall s (by simp))
        rw [h] at this; cases this
    · cases u
      simp only [checkSummaries, h]
      rw [ih (idx + 1)]
      constructor
      · intro hall t ht
        rcases List.mem_cons.1 ht with rfl | ht'
        · exact (checkSummary_ok_iff t idx).1 h
        · exact hall t ht'
      · intro hall t ht
        exact hall t (List.mem_cons_of_mem _ ht)

/-- `validate_summaries` passes exactly when there are at least 3
summaries, each with all required fields and non-blank text. -/
theorem validate_ok_iff (l : List Summary) :
    validate_summaries l = .ok ()
      ↔ 3 ≤ l.length ∧ ∀ s ∈ l, summaryInvalid s = false := by
  unfold validate_summaries
  split_ifs with h1 h2
  · constructor
    · intro hc; cases hc
    · intro ⟨h3, _⟩; omega
  · constructor
    · intro hc; cases hc
    · intro ⟨h3, _⟩; omega
  · rw [checkSummaries_ok_iff]
    constructor
    · intro hall; exact ⟨by omega, hall⟩
    · intro ⟨_, hall⟩; exact hall

/-- C8 counterexample: three summaries, all five required fields present,
but one has empty summary text — the claim's "otherwise validation passes
and a post is returned" predicts success, yet `compose_weekly_post`
raises `ComposerError` (the empty-text check the claim omits). -/
theorem C8_counterexample :
    (3 ≤ ([⟨some "u1".toList, some "Story one.".toList, some "TechCrunch".toList,
            some "2025-10-01".toList, some "openai".toList⟩,
           ⟨some "u2".toList, some "Story two.".toList, some "Verge".toList,
            some "2025-10-02".toList, some "openai".toList⟩,
           ⟨some "u3".toList, some "".toList, some "Wired".toList,
            some "2025-10-03".toList, some "openai".toList⟩] : List Summary).length)
    ∧ ([⟨some "u1".toList, some "Story one.".toList, some "TechCrunch".toList,
          some "2025-10-01".toList, some "openai".toList⟩,
        ⟨some "u2".toList, some "Story two.".toList, some "Verge".toList,
          some "2025-10-02".toList, some "openai".toList⟩,
        ⟨some "u3".toList, some "".toList, some "Wired".toList,
          some "2025-10-03".toList, some "openai".toList⟩] : List Summary).all
        (fun s => s.article_url.isSome && s.summary.isSome && s.source.isSome
          && s.published_at.isSome && s.provider.isSome) = true
    ∧ compose_weekly_post
        [⟨some "u1".toList, some "Story one.".toList, some "TechCrunch".toList,
          some "2025-10-01".toList, some "openai".toList⟩,
         ⟨some "u2".toList, some "Story two.".toList, some "Verge".toList,
          some "2025-10-02".toList, some "openai".toList⟩,
         ⟨some "u3".toList, some "".toList, some "Wired".toList,
          some "2025-10-03".toList, some "openai".toList⟩]
        "2025.W41".toList "2025".toList = .error (emptySummaryMsg 2) := by
  exact ⟨by decide, by decide, rfl⟩

/-- C8 amended: `compose_weekly_post` raises `ComposerError` whenever
there are fewer than 3 summaries, a summary is missing a required field,
or a summary's text is empty/whitespace-only; otherwise validation passes
and a post is returned. -/
theorem C8_compose_validation (summaries : List Summary) (wk fy : Str) :
    ((summaries.length < 3 ∨ ∃ s ∈ summaries, summaryInvalid s = true) →
      ∃ e, compose_weekly_post summaries wk fy = .error e)
    ∧ (3 ≤ summaries.length → (∀ s ∈ summaries, summaryInvalid s = false) →
      ∃ post, compose_weekly_post summaries wk fy = .ok post) := by
  constructor
  · intro hbad
    rcases hv : validate_summaries summaries with e | u
    · exact ⟨e, by simp only [compose_weekly_post, hv]⟩
    · exfalso
      cases u
      rcases (validate_ok_iff summaries).1 hv with ⟨hlen, hall⟩
      rcases hbad with hlt | ⟨s, hs, hinv⟩
      · omega
      · rw [hall s hs] at hinv; cases hinv
  · intro hlen hall
    have hv : validate_summaries summaries = .ok () :=
      (validate_ok_iff summaries).2 ⟨hlen, hall⟩
    rcases hc : compose_weekly_post summaries wk fy with e | p
    · exfalso
      simp only [compose_weekly_post, hv] at hc
      cases hc
    · exact ⟨p, rfl⟩

/-- Witness for C8 (amended): three fully valid summaries compose into a
post. -/
theorem C8_witness :
    (compose_weekly_post
      [⟨some "u1".toList, some "First AI story.".toList, some "TechCrunch".toList,
        some "2025-10-01".toList, some "openai".toList⟩,
       ⟨some "u2".toList, some "Second cloud story.".toList, some "Verge".toList,
        some "2025-10-02".toList, some "openai".toList⟩,
       ⟨some "u3".toList, some "Third quantum story.".toList, some "Wired".toList,
        some "2025-10-03".toList, some "openai".toList⟩]
      "2025.W41".toList "2025".toList).toOption.isSome = true := by
  obtain ⟨post, hp⟩ := (C8_compose_validation
    [⟨some "u1".toList, some "First AI story.".toList, some "TechCrunch".toList,
      some "2025-10-01".toList, some "openai".toList⟩,
     ⟨some "u2".toList, some "Second cloud story.".toList, some "Verge".toList,
      some "2025-10-02".toList, some "openai".toList⟩,
     ⟨some "u3".toList, some "Third quantum story.".toList, some "Wired".toList,
      some "2025-10-03".toList, some "openai".toList⟩]
    "2025.W41".toList "2025".toList).2 (by decide) (by decide)
  rw [hp]
  rfl

/-- Truncation keeps the 3000-character cap: the cut point is always at
most `limit - 50` characters in, and the ellipsis adds 3. -/
theorem truncate_to_limit_le (content : Str) (h : 3000 < content.length) :
    (truncate_to_limit content 3000).length ≤ 3000 := by
  have hdots : ("...".toList : Str).length = 3 := rfl
  unfold truncate_to_limit
  rw [if_neg (by omega)]
  dsimp only
  split_ifs <;>
    simp only [List.length_append, List.length_take] <;>
    omega

/-- C10: every post returned by `compose_weekly_post` has at most 3000
characters of content and an `article_count` of at most 6: the assembled
content is truncated when it exceeds 3000 characters, so the cap is never
exceeded, and at most the first 6 summaries are selected. -/
theorem C10_content_cap (summaries : List Summary) (wk fy : Str) (post : Post)
    (hp : compose_weekly_post summaries wk fy = .ok post) :
    post.content.length ≤ 3000 ∧ post.article_count ≤ 6 := by
  unfold compose_weekly_post at hp
  rcases hv : validate_summaries summaries with e | u
  · rw [hv] at hp; cases hp
  · rw [hv] at hp
    dsimp only at hp
    cases hp
    constructor
    · dsimp only
      split_ifs <;>
        first
          | exact truncate_to_limit_le _ (by omega)
          | omega
    · dsimp only
      split_ifs with h <;>
        first
          | (simp only [List.length_take]; omega)
          | omega

/-- Witness for C10 at three concrete summaries: the composed post obeys
both caps. -/
theorem C10_witness :
    (compose_weekly_post
      [⟨some "a1".toList, some "Alpha ai story.".toList, some "TechCrunch".toList,
        some "2025-10-01".toList, some "openai".toList⟩,
       ⟨some "a2".toList, some "Beta data story.".toList, some "Verge".toList,
        some "2025-10-02".toList, some "openai".toList⟩,
       ⟨some "a3".toList, some "Gamma edge story.".toList, some "Wired".toList,
        some "2025-10-03".toList, some "openai".toList⟩]
      "2025.W41".toList "2025".toList).toOption.elim 0
        (fun p => p.content.length) ≤ 3000
    ∧ (compose_weekly_post
      [⟨some "a1".toList, some "Alpha ai story.".toList, some "TechCrunch".toList,
        some "2025-10-01".toList, some "openai".toList⟩,
       ⟨some "a2".toList, some "Beta data story.".toList, some "Verge".toList,
        some "2025-10-02".toList, some "openai".toList⟩,
       ⟨some "a3".toList, some "Gamma edge story.".toList, some "Wired".toList,
        some "2025-10-03".toList, some "openai".toList⟩]
      "2025.W41".toList "2025".toList).toOption.elim 0
        (fun p => p.article_count) ≤ 6 := by
  rcases hp : compose_weekly_post
      [⟨some "a1".toList, some "Alpha ai story.".toList, some "TechCrunch".toList,
        some "2025-10-01".toList, some "openai".toList⟩,
       ⟨some "a2".toList, some "Beta data story.".toList, some "Verge".toList,
        some "2025-10-02".toList, some "openai".toList⟩,
       ⟨some "a3".toList, some "Gamma edge story.".toList, some "Wired".toList,
        some "2025-10-03".toList, some "openai".toList⟩]
      "2025.W41".toList "2025".toList with e | p
  · exfalso
    have hs : (compose_weekly_post
      [⟨some "a1".toList, some "Alpha ai story.".toList, some "TechCrunch".toList,
        some "2025-10-01".toList, some "openai".toList⟩,
       ⟨some "a2".toList, some "Beta data story.".toList, some "Verge".toList,
        some "2025-10-02".toList, some "openai".toList⟩,
       ⟨some "a3".toList, some "Gamma edge story.".toList, some "Wired".toList,
        some "2025-10-03".toList, some "openai".toList⟩]
      "2025.W41".toList "2025".toList).toOption.isSome = true := by decide
    rw [hp] at hs
    cases hs
  · have h := C10_content_cap _ _ _ _ hp
    simpa using h

/-- Days before year `y + 1` are days before year `y` plus its length. -/
theorem dby_succ (y : Nat) (hy : 1 ≤ y) :
    daysBeforeYear (y + 1) = daysBeforeYear y + daysInYear y := by
  obtain ⟨n, rfl⟩ : ∃ n, y = n + 1 := ⟨y - 1, by omega⟩
  have h1 : daysBeforeYear (n + 1 + 1)
      = (n + 1) * 365 + (n + 1) / 4 - (n + 1) / 100 + (n + 1) / 400 := by
    simp [daysBeforeYear]
  have h2 : daysBeforeYear (n + 1) = n * 365 + n / 4 - n / 100 + n / 400 := by
    simp [daysBeforeYear]
  rw [h1, h2, daysInYear]
  cases hL : isLeap (n + 1) with
  | false =>
    rw [if_neg (by simp [hL])]
    simp only [isLeap, beq_iff_eq, bne, Bool.and_eq_false_iff, Bool.or_eq_false_iff,
      Bool.not_eq_false', beq_iff_eq, Bool.not_eq_true, beq_eq_false_iff_ne] at hL
    omega
  | true =>
    rw [if_pos (by simp [hL])]
    simp only [isLeap, Bool.and_eq_true, beq_iff_eq, Bool.or_eq_true, bne_iff_ne,
      beq_iff_eq] at hL
    omega

/-- A month's days all fit inside its year. -/
theorem month_bound (y m : Nat) (h1 : 1 ≤ m) (h2 : m ≤ 12) :
    daysBeforeMonth y m + daysInMonth y m ≤ daysInYear y := by
  interval_cases m <;>
    simp [daysBeforeMonth, dbmTable, daysInMonth, daysInYear] <;>
    split_ifs <;> simp_all

/-- Every year has 365 or 366 days. -/
theorem diy_bounds (y : Nat) : 365 ≤ daysInYear y ∧ daysInYear y ≤ 366 := by
  unfold daysInYear
  split_ifs <;> omega

/-- A valid date's ordinal lies within its year. -/
theorem ord_bounds (y m d : Nat) (h : validDate y m d) :
    daysBeforeYear y + 1 ≤ ymd2ord y m d
    ∧ ymd2ord y m d ≤ daysBeforeYear y + daysInYear y := by
  obtain ⟨hy, hm1, hm2, hd1, hd2⟩ := h
  have hb := month_bound y m hm1 hm2
  unfold ymd2ord
  omega

/-- Week 1's Monday lies within 3 days of January 1. -/
theorem w1_bounds (y : Nat) :
    (daysBeforeYear y : Int) - 2 ≤ isoweek1monday y
    ∧ isoweek1monday y ≤ (daysBeforeYear y : Int) + 4 := by
  unfold isoweek1monday
  have hfd : (ymd2ord y 1 1 : Int) = (daysBeforeYear y : Int) + 1 := by
    unfold ymd2ord daysBeforeMonth dbmTable
    simp
  rw [hfd]
  dsimp only
  have hm1 : 0 ≤ ((daysBeforeYear y : Int) + 1 + 6) % 7 := by omega
  have hm2 : ((daysBeforeYear y : Int) + 1 + 6) % 7 < 7 := by omega
  split_ifs <;> omega

/-- The ISO week number of a valid date is between 1 and 54 (CPython in
fact keeps it ≤ 53; the coarser bound suffices for two-digit padding). -/
theorem isoWeek_bounds (y m d : Nat) (h : validDate y m d) :
    1 ≤ (isocalendar y m d).2.1 ∧ (isocalendar y m d).2.1 ≤ 54 := by
  obtain ⟨hy, hm1, hm2, hd1, hd2⟩ := h
  have hord := ord_bounds y m d ⟨hy, hm1, hm2, hd1, hd2⟩
  have hw1 := w1_bounds y
  have hdiy := diy_bounds y
  unfold isocalendar
  dsimp only
  split_ifs with hneg helif
  · have hy2 : 2 ≤ y := by
      by_contra hlt
      have hy1 : y = 1 := by omega
      subst hy1
      have hw11 : isoweek1monday 1 = 1 := by decide
      rw [hw11] at hneg
      have hdby : daysBeforeYear 1 = 0 := by decide
      omega
    have hw1p := w1_bounds (y - 1)
    have hchain : daysBeforeYear y = daysBeforeYear (y - 1) + daysInYear (y - 1) := by
      have hh := dby_succ (y - 1) (by omega)
      have hyy : y - 1 + 1 = y := by omega
      rw [hyy] at hh
      exact hh
    have hdiyp := diy_bounds (y - 1)
    have ht_lt : (ymd2ord y m d : Int) < isoweek1monday y := by
      by_contra hge
      push_neg at hge
      have h0 : 0 ≤ ((ymd2ord y m d : Int) - isoweek1monday y) / 7 := by omega
      omega
    constructor <;> dsimp only <;> omega
  · dsimp only
    omega
  · push_neg at hneg
    dsimp only
    constructor <;> omega

/-- Digit characters are digits. -/
theorem digitChar_isDigit (k : Nat) (hk : k < 10) : (digitChar k).isDigit = true := by
  interval_cases k <;> rfl

/-- `natDigitsAux` is independent of the fuel once it is sufficient. -/
theorem natDigitsAux_fuel (n : Nat) : ∀ f1 f2, n < f1 → n < f2 →
    natDigitsAux f1 n = natDigitsAux f2 n := by
  induction n using Nat.strong_induction_on with
  | _ n ih =>
    intro f1 f2 h1 h2
    obtain ⟨g1, rfl⟩ : ∃ g, f1 = g + 1 := ⟨f1 - 1, by omega⟩
    obtain ⟨g2, rfl⟩ : ∃ g, f2 = g + 1 := ⟨f2 - 1, by omega⟩
    by_cases hn : n < 10
    · simp [natDigitsAux, hn]
    · simp only [natDigitsAux, if_neg hn]
      congr 1
      exact ih (n / 10) (by omega) g1 g2 (by omega) (by omega)

/-- One-digit numbers print as one digit. -/
theorem natDigits_small (n : Nat) (hn : n < 10) : natDigits n = [digitChar n] := by
  unfold natDigits
  simp [natDigitsAux, hn]

/-- Peeling the last digit off a multi-digit number. -/
theorem natDigits_step (n : Nat) (hn : 10 ≤ n) :
    natDigits n = natDigits (n / 10) ++ [digitChar (n % 10)] := by
  unfold natDigits
  simp only [natDigitsAux, if_neg (by omega : ¬ n < 10)]
  congr 1
  exact natDigitsAux_fuel (n / 10) n (n / 10 + 1) (by omega) (by omega)

/-- Two-digit numbers print as two digits. -/
theorem natDigits_two (n : Nat) (h1 : 10 ≤ n) (h2 : n ≤ 99) :
    natDigits n = [digitChar (n / 10), digitChar (n % 10)] := by
  rw [natDigits_step n h1, natDigits_small (n / 10) (by omega)]
  rfl

/-- Four-digit numbers print as four digits. -/
theorem natDigits_four (n : Nat) (h1 : 1000 ≤ n) (h2 : n ≤ 9999) :
    natDigits n = [digitChar (n / 1000), digitChar (n / 100 % 10),
                   digitChar (n / 10 % 10), digitChar (n % 10)] := by
  have e1 : n / 10 / 10 = n / 100 := by omega
  have e2 : n / 100 / 10 = n / 1000 := by omega
  rw [natDigits_step n (by omega), natDigits_step (n / 10) (by omega), e1,
      natDigits_two (n / 100) (by omega) (by omega), e2]
  rfl

/-- `f"{w:02d}"` of a week number in `[1, 99]` is exactly two digit
characters. -/
theorem py02d_digits (w : Int) (h1 : 1 ≤ w) (h2 : w ≤ 99) :
    ∃ a b, py02d w = [a, b] ∧ a.isDigit = true ∧ b.isDigit = true := by
  have hrep : intRepr w = natDigits w.toNat := by
    unfold intRepr
    rw [if_neg (by omega)]
  by_cases hw : w < 10
  · have hd : natDigits w.toNat = [digitChar w.toNat] := natDigits_small _ (by omega)
    refine ⟨'0', digitChar w.toNat, ?_, rfl, digitChar_isDigit w.toNat (by omega)⟩
    unfold py02d
    rw [hrep, hd]
    rfl
  · have hd : natDigits w.toNat
        = [digitChar (w.toNat / 10), digitChar (w.toNat % 10)] :=
      natDigits_two _ (by omega) (by omega)
    refine ⟨digitChar (w.toNat / 10), digitChar (w.toNat % 10), ?_,
      digitChar_isDigit _ (by omega), digitChar_isDigit _ (by omega)⟩
    unfold py02d
    rw [hrep, hd]
    rfl

/-- C6 counterexample: the week key of 0001-01-01 (a date Python's
`datetime` accepts) is `"1.W01"` — the ISO year is not zero-padded to
four digits, so the claimed pattern `^\d\x7b4\x7d\.W\d\x7b2\x7d$` fails. -/
theorem C6_counterexample :
    validDate 1 1 1
    ∧ get_week_key_for_date 1 1 1 = "1.W01".toList
    ∧ weekKeyPattern (get_week_key_for_date 1 1 1) = false := by
  exact ⟨by decide, by decide, by decide⟩

/-- C6 amended: `get_week_key_for_date` is a pure deterministic function
of the date (two calls on the same date give the same string, which in
this embedding is definitional), and for every valid date whose ISO year
has four digits (between 1000 and 9999 — the year part is not padded, so
earlier ISO years give shorter strings) the result matches
`^\d\x7b4\x7d\.W\d\x7b2\x7d$`. -/
theorem C6_week_key_deterministic_and_shape (y m d : Nat) (h : validDate y m d)
    (h1 : 1000 ≤ (isocalendar y m d).1) (h2 : (isocalendar y m d).1 ≤ 9999) :
    get_week_key_for_date y m d = get_week_key_for_date y m d
    ∧ weekKeyPattern (get_week_key_for_date y m d) = true := by
  refine ⟨rfl, ?_⟩
  have hweek := isoWeek_bounds y m d h
  obtain ⟨a, b, hab, ha, hb⟩ :=
    py02d_digits (isocalendar y m d).2.1 (by omega) (by omega)
  have hyear := natDigits_four (isocalendar y m d).1 h1 h2
  have hd1 : (digitChar ((isocalendar y m d).1 / 1000)).isDigit = true :=
    digitChar_isDigit _ (by omega)
  have hd2 : (digitChar ((isocalendar y m d).1 / 100 % 10)).isDigit = true :=
    digitChar_isDigit _ (by omega)
  have hd3 : (digitChar ((isocalendar y m d).1 / 10 % 10)).isDigit = true :=
    digitChar_isDigit _ (by omega)
  have hd4 : (digitChar ((isocalendar y m d).1 % 10)).isDigit = true :=
    digitChar_isDigit _ (by omega)
  unfold get_week_key_for_date
  rw [hyear, hab, show (".W".toList : Str) = ['.', 'W'] from rfl]
  simp [weekKeyPattern, hd1, hd2, hd3, hd4, ha, hb]

/-- Witness for C6 at 2025-10-12 (ISO year 2025, week 41). -/
theorem C6_witness :
    get_week_key_for_date 2025 10 12 = get_week_key_for_date 2025 10 12
    ∧ weekKeyPattern (get_week_key_for_date 2025 10 12) = true := by
  exact C6_week_key_deterministic_and_shape 2025 10 12 (by decide) (by decide)
    (by decide)

end NewsAggregator
